import Mathlib

/-!
Verification development for the PRONTO QA test harness (order-lifecycle E2E
scripts).  The definitions below are shallow embeddings of the decision logic
of the order-cycle scripts:

* `tests/performance/performance.spec.ts` — the "Ciclo Completo" multi-role test;
* `playwright-tests/qa-cycle.spec.ts` — the "Complete order cycle" test;
* `pronto-qa-test.cjs`, `pronto-test-v2.cjs`, `test_e2e_simple.cjs` — the
  standalone runner scripts with their findings collectors and reports.

Browser interaction is embedded by making the observed page data (rows, cards,
buttons, captured responses) explicit inputs of the functions.
-/

namespace Pronto

/-! ### Character-list utilities: substring search, case folding, digit scans -/

/-- `pat` is a prefix of `l`, character by character. -/
def isPrefixOfCL : List Char → List Char → Bool
  | [], _ => true
  | _ :: _, [] => false
  | a :: as, b :: bs => a = b && isPrefixOfCL as bs

/-- `pat` occurs as a contiguous sublist of `l`. -/
def containsSubCL (pat : List Char) : List Char → Bool
  | [] => pat.isEmpty
  | c :: rest => isPrefixOfCL pat (c :: rest) || containsSubCL pat rest

/-- Substring test on strings (semantics of a CSS `:has-text` / `includes` check). -/
def containsSubstr (s pat : String) : Bool :=
  containsSubCL pat.toList s.toList

/-- Lower-case every character. -/
def lowerCL (l : List Char) : List Char := l.map Char.toLower

/-- Case-insensitive substring test (semantics of a `/.../i` regex used with
`toMatch`, which succeeds when some substring matches). -/
def containsCI (s pat : String) : Bool :=
  containsSubCL (lowerCL pat.toList) (lowerCL s.toList)

/-- Upper-case every character (JS `toUpperCase` on ASCII). -/
def upperStr (s : String) : String :=
  String.mk (s.toList.map Char.toUpper)

/-- The maximal run of digits at the head of the list. -/
def digitRun : List Char → List Char
  | [] => []
  | c :: cs => if c.isDigit then c :: digitRun cs else []

/-- Remove `pat` from the head of the list, when it is a prefix. -/
def dropPrefixCL : List Char → List Char → Option (List Char)
  | [], rest => some rest
  | _ :: _, [] => none
  | a :: as, b :: bs => if a = b then dropPrefixCL as bs else none

/-- Scan for the first position where `pat` is followed by at least one digit and
return that digit run: the semantics of matching the regex `pat(\d+)` against a
string and taking capture group 1. -/
def scanPatDigits (pat : List Char) : List Char → Option (List Char)
  | [] => none
  | c :: rest =>
    match dropPrefixCL pat (c :: rest) with
    | some r =>
      let d := digitRun r
      if d.isEmpty then scanPatDigits pat rest else some d
    | none => scanPatDigits pat rest

/-! ### Findings, severities, summaries and exit codes

`pronto-qa-test.cjs` and `pronto-test-v2.cjs` collect findings through
`captureError(severity, description, location, impact, solution)`; every call
site passes one of the four literal severities. -/

inductive Severity
  | critical
  | high
  | medium
  | low
deriving DecidableEq

structure Finding where
  severity : Severity
  description : String
  location : String
  impact : String
  solution : String
deriving DecidableEq

/-- Number of collected findings with severity `s`
(the `errors.filter((e) => e.severity === S).length` idiom). -/
def countSev (errors : List Finding) (s : Severity) : Nat :=
  (errors.filter (fun e => e.severity = s)).length

structure QaSummary where
  total : Nat
  critical : Nat
  high : Nat
  medium : Nat
  low : Nat
deriving DecidableEq

/-- The `report.summary` object built by pronto-qa-test.cjs (lines 373–383):
`total` is `errors.length` and each severity field filters `errors` by that
severity. -/
def qaTestSummary (errors : List Finding) : QaSummary :=
  { total := errors.length
    critical := (errors.filter (fun e => e.severity = Severity.critical)).length
    high := (errors.filter (fun e => e.severity = Severity.high)).length
    medium := (errors.filter (fun e => e.severity = Severity.medium)).length
    low := (errors.filter (fun e => e.severity = Severity.low)).length }

/-- The full report pronto-qa-test.cjs writes to `/tmp/pronto-qa-report.json`:
a timestamp (elided), the summary, and the findings in recording order. -/
structure QaReport where
  summary : QaSummary
  reportErrors : List Finding
deriving DecidableEq

def qaTestReport (errors : List Finding) : QaReport :=
  { summary := qaTestSummary errors, reportErrors := errors }

structure SevCounts where
  criticalCount : Nat
  highCount : Nat
  mediumCount : Nat
  lowCount : Nat
deriving DecidableEq

/-- One step of `errors.forEach((e) => bySev[e.severity]++)`. -/
def bumpSev (c : SevCounts) : Severity → SevCounts
  | Severity.critical => { c with criticalCount := c.criticalCount + 1 }
  | Severity.high => { c with highCount := c.highCount + 1 }
  | Severity.medium => { c with mediumCount := c.mediumCount + 1 }
  | Severity.low => { c with lowCount := c.lowCount + 1 }

/-- The `bySev` aggregation of pronto-test-v2.cjs (lines 214–215): counters start
at zero and are bumped once per collected finding; the resulting object is the
`summary` of the report v2 writes (lines 232–243, which has no `total` field). -/
def bySev (errors : List Finding) : SevCounts :=
  errors.foldl (fun c e => bumpSev c e.severity)
    { criticalCount := 0, highCount := 0, mediumCount := 0, lowCount := 0 }

/-- Exit code of test_e2e_simple.cjs (line 236):
`process.exit(errors.length === 0 ? 0 : 1)`. -/
def e2eSimpleExitCode (errors : List String) : Nat :=
  if errors.length = 0 then 0 else 1

/-- Exit status of the pronto-qa-test.cjs main IIFE: the script prints its report,
writes the JSON file and returns without ever calling `process.exit`, so the node
process terminates with status 0 whatever the collected findings are. -/
def prontoQaTestExitCode (_errors : List Finding) : Nat := 0

/-! ### Browser-context allocation

`browser.newContext()` yields a fresh, isolated context (own cookies and
localStorage); `context.newPage()` attaches a page to an existing context;
`browser.newPage()` creates a page in its own fresh context.  Allocation is
embedded as a counter handing out context ids in creation order. -/

structure BrowserAlloc where
  nextCtx : Nat
deriving DecidableEq

def newContext (b : BrowserAlloc) : BrowserAlloc × Nat :=
  ({ nextCtx := b.nextCtx + 1 }, b.nextCtx)

/-- Context of each actor page opened by the Ciclo Completo test of
performance.spec.ts: every step calls `browser.newContext()` and opens its page
there (lines 170–171, 393–394, 521–522, 660–661, 855–856). -/
def cicloCompletoPages : List (String × Nat) :=
  let p1 := newContext { nextCtx := 0 }
  let p2 := newContext p1.1
  let p3 := newContext p2.1
  let p4 := newContext p3.1
  let p5 := newContext p4.1
  [("client", p1.2), ("waiterAccept", p2.2), ("chef", p3.2),
   ("waiterDeliver", p4.2), ("verifier", p5.2)]

/-- Context of each actor page of qa-cycle.spec.ts: the client page is opened with
`browser.newPage()` (line 66, own fresh context) and each `loginToConsole` call
creates a dedicated `browser.newContext()` (lines 13–14) for the waiter, chef,
second-waiter and cashier sessions. -/
def qaCyclePages : List (String × Nat) :=
  let p1 := newContext { nextCtx := 0 }
  let p2 := newContext p1.1
  let p3 := newContext p2.1
  let p4 := newContext p3.1
  let p5 := newContext p4.1
  [("client", p1.2), ("waiterAccept", p2.2), ("chef", p3.2),
   ("waiterDeliver", p4.2), ("cashier", p5.2)]

/-- pronto-qa-test.cjs lines 23–28: a single `browser.newContext()` and two pages
(`clientPage`, `employeePage`) opened from that same context. -/
def prontoQaTestPages : List (String × Nat) :=
  let p1 := newContext { nextCtx := 0 }
  [("clientPage", p1.2), ("employeePage", p1.2)]

/-- pronto-test-v2.cjs lines 22–26: the same shape — one shared context for the
client page and the employee page. -/
def prontoTestV2Pages : List (String × Nat) :=
  let p1 := newContext { nextCtx := 0 }
  [("clientPage", p1.2), ("employeePage", p1.2)]

/-! ### Transition confirmation modes

After invoking a transition control, a script either merely sleeps for a fixed
number of milliseconds, or polls the order's observed `data-status` attribute
until it matches one of the accepted status strings or a bounded timeout
elapses (the `expect(async ...).toPass({ timeout })` idiom). -/

inductive Confirmation
  | fixedSleep (ms : Nat)
  | pollStatus (accepted : List String) (timeoutMs : Nat)
deriving DecidableEq

def Confirmation.isPoll : Confirmation → Bool
  | pollStatus _ _ => true
  | fixedSleep _ => false

/-- Whether a poll over the given accepted alternatives succeeds on a trace of
observed `data-status` values: it does as soon as some observation matches some
alternative (case-insensitive substring, the `toMatch(/a|b/i)` semantics). -/
def pollOutcome (accepted : List String) (observations : List String) : Bool :=
  observations.any (fun st => accepted.any (fun a => containsCI st a))

/-- Whether the run proceeds past a confirmation step given the observed status
trace: a fixed sleep confirms nothing and always lets the run proceed; a poll
proceeds only when a matching status was observed in time. -/
def confirmProceeds (c : Confirmation) (observations : List String) : Bool :=
  match c with
  | Confirmation.fixedSleep _ => true
  | Confirmation.pollStatus accepted _ => pollOutcome accepted observations

/-- The five lifecycle transitions of the Ciclo Completo test of
performance.spec.ts, each with how its invocation is followed up in the source:

* waiter accept (lines 490–506): `click` then `waitForTimeout(3000)`, a refresh
  and another `waitForTimeout(2000)`; the new `data-status` is only logged,
  never asserted;
* chef start (lines 628–637): `toPass({ timeout: 10000 })` polling `data-status`
  against `/kitchen_in_progress|preparing/i`;
* chef ready (lines 641–649): the same polling against
  `/ready_for_delivery|ready/i`, timeout 10000;
* waiter deliver (lines 772–784): polling until `data-status` is `delivered`,
  timeout 20000;
* payment confirm (lines 824–828): click on `#confirm-cash-payment` then
  `waitForTimeout(2000)`; the paid state is not polled in this step. -/
def cicloTransitions : List (String × Confirmation) :=
  [("waiterAccept", Confirmation.fixedSleep 3000),
   ("chefStart", Confirmation.pollStatus ["kitchen_in_progress", "preparing"] 10000),
   ("chefReady", Confirmation.pollStatus ["ready_for_delivery", "ready"] 10000),
   ("waiterDeliver", Confirmation.pollStatus ["delivered"] 20000),
   ("payment", Confirmation.fixedSleep 2000)]

/-- qa-cycle.spec.ts follows every transition click with a fixed
`waitForTimeout(1500)` and no status check at all (lines 176–177, 213–214,
221–222, 245–247, 253–255). -/
def qaCycleTransitions : List (String × Confirmation) :=
  [("waiterAccept", Confirmation.fixedSleep 1500),
   ("chefStart", Confirmation.fixedSleep 1500),
   ("chefReady", Confirmation.fixedSleep 1500),
   ("waiterDeliver", Confirmation.fixedSleep 1500),
   ("cashPayment", Confirmation.fixedSleep 1500)]

/-! ### Order-id resolution

Everything the two order-cycle tests may look at right after order creation is
gathered in one `CreationSignal` record; each resolver reads only the fields its
script actually consults. -/

/-- First value stored under key `k` in a parsed JSON object (fields as
key/value pairs, values already stringified by `toString()`). -/
def lookupKey (k : String) : List (String × String) → Option String
  | [] => none
  | kv :: rest => if kv.1 = k then some kv.2 else lookupKey k rest

/-- JS `a || b` over possibly-missing strings: `a` wins unless it is absent or
empty (the only falsy string). -/
def jsOr (a b : Option String) : Option String :=
  match a with
  | some s => if s = "" then b else some s
  | none => b

structure CreationSignal where
  /-- body of the captured `POST /api/orders` response, when it arrived, was `ok`
  and parsed (qa-cycle.spec.ts lines 118–135) -/
  postResponse : Option (List (String × String))
  /-- `data.orders` returned by `GET /api/orders/active`
  (qa-cycle.spec.ts lines 141–147) -/
  activeOrders : List (List (String × String))
  /-- `data-order-id` attribute of the first `.order-card` whose text contains the
  customer name, when such a card exists (performance.spec.ts lines 346–350);
  the inner `Option` is the attribute, `none` when the attribute is absent -/
  orderCardAttr : Option (Option String)
  /-- the page URL after checkout (performance.spec.ts line 354) -/
  pageUrl : String
  /-- `data-order-id` attribute of the first `[data-order-id]` element, when one
  is visible (performance.spec.ts lines 363–369) -/
  anyDataOrderAttr : Option (Option String)
  /-- text of the first `.order-number, .order-id-display` element, when visible
  (performance.spec.ts lines 372–381) -/
  orderNumberText : Option String
deriving DecidableEq

/-- qa-cycle strategy (a), lines 127–135:
`orderId = data.order_id?.toString() || data.id?.toString()` on the captured
creation response. -/
def payloadStrategy (env : CreationSignal) : Option String :=
  match env.postResponse with
  | some payload => jsOr (lookupKey "order_id" payload) (lookupKey "id" payload)
  | none => none

/-- qa-cycle strategy (b), lines 140–148: first entry of `/api/orders/active`,
`orders?.[0]?.id?.toString() || orders?.[0]?.order_id?.toString()`. -/
def activeOrdersStrategy (env : CreationSignal) : Option String :=
  match env.activeOrders.head? with
  | some entry => jsOr (lookupKey "id" entry) (lookupKey "order_id" entry)
  | none => none

/-- Order-id capture of qa-cycle.spec.ts (lines 118–148): the captured creation
response first, then — only when that left `orderId` unset — the first entry of
the active-orders endpoint.  The DOM and visible text are never consulted. -/
def resolveOrderQaCycle (env : CreationSignal) : Option String :=
  jsOr (payloadStrategy env) (activeOrdersStrategy env)

/-- Ciclo Completo Method 1, lines 346–350: `data-order-id` of the order card
found by customer name, `getAttribute(...) || ''` with the empty string falsy. -/
def cardByNameStrategy (env : CreationSignal) : Option String :=
  match env.orderCardAttr with
  | some (some v) => if v = "" then none else some v
  | some none => none
  | none => none

/-- Ciclo Completo Method 2, lines 353–360: `url.match(/\/orders\/(\d+)/)`. -/
def urlStrategy (env : CreationSignal) : Option String :=
  (scanPatDigits "/orders/".toList env.pageUrl.toList).map (fun d => String.mk d)

/-- Ciclo Completo Method 3, lines 363–369: `data-order-id` of the first visible
`[data-order-id]` element, again with `|| ''`. -/
def domAttrStrategy (env : CreationSignal) : Option String :=
  match env.anyDataOrderAttr with
  | some (some v) => if v = "" then none else some v
  | some none => none
  | none => none

/-- Ciclo Completo Method 4, lines 372–382: `text.match(/#(\d+)/)` on the visible
order-number text. -/
def hashTextStrategy (env : CreationSignal) : Option String :=
  match env.orderNumberText with
  | some t => (scanPatDigits ['#'] t.toList).map (fun d => String.mk d)
  | none => none

/-- Order-id capture of the Ciclo Completo test (lines 344–384): Methods 1–4 in
order, each tried only while `orderId` is still unset.  The captured network
response and the read endpoint are never consulted. -/
def resolveOrderPerf (env : CreationSignal) : Option String :=
  jsOr (cardByNameStrategy env)
    (jsOr (urlStrategy env) (jsOr (domAttrStrategy env) (hashTextStrategy env)))

/-- The resolver as claim C2 and the spec describe it (stated for comparison with
the source resolvers above): strategies (a) creation-response payload under
`order_id` or `id`, (b) most recent active-orders entry, (c) DOM data attribute,
(d) number after a hash in visible order-number text, first success wins. -/
def resolveOrderClaimed (env : CreationSignal) : Option String :=
  jsOr (payloadStrategy env)
    (jsOr (activeOrdersStrategy env) (jsOr (domAttrStrategy env) (hashTextStrategy env)))

/-! ### Dashboard rows and the shared order reference

The Ciclo Completo test carries `orderId` and `customerName` across actor
stages; each stage looks the order up in its dashboard, first by the
`tr[data-order-id=...]` selector, then by `tr:has-text(customerName.toUpperCase())`. -/

structure OrderRow where
  /-- the row's `data-order-id` attribute, `none` when absent -/
  dataOrderId : Option String
  /-- the row's visible text -/
  rowText : String
  /-- the row's `data-status` attribute -/
  dataStatus : String
deriving DecidableEq

structure SharedOrderState where
  orderId : String
  customerName : String
deriving DecidableEq

/-- First row matching `tr[data-order-id="oid"]`; the guard `orderId && count > 0`
makes an empty inherited id skip the by-id lookup. -/
def findRowById (rows : List OrderRow) (oid : String) : Option OrderRow :=
  if oid = "" then none else rows.find? (fun r => r.dataOrderId = some oid)

/-- First row matching `tr:has-text(customerName.toUpperCase())`. -/
def findRowByName (rows : List OrderRow) (name : String) : Option OrderRow :=
  rows.find? (fun r => containsSubstr r.rowText (upperStr name))

/-- Waiter-accept order lookup of the Ciclo Completo test (lines 446–464): by id
first, then by upper-cased customer-name text; when the name fallback hits a row
carrying a truthy `data-order-id`, the shared `orderId` is updated to it
(`if (foundOrderId) orderId = foundOrderId`). -/
def waiterAcceptLocate (st : SharedOrderState) (rows : List OrderRow) :
    SharedOrderState × Option OrderRow :=
  match findRowById rows st.orderId with
  | some r => (st, some r)
  | none =>
    match findRowByName rows st.customerName with
    | some r =>
      match r.dataOrderId with
      | some fid => if fid = "" then (st, some r) else ({ st with orderId := fid }, some r)
      | none => (st, some r)
    | none => (st, none)

/-- Chef order lookup (lines 587–601): by id, then by customer-name text; the
shared `orderId` is left untouched by the fallback. -/
def chefLocate (st : SharedOrderState) (rows : List OrderRow) :
    SharedOrderState × Option OrderRow :=
  match findRowById rows st.orderId with
  | some r => (st, some r)
  | none => (st, findRowByName rows st.customerName)

/-- Waiter-deliver order lookup (lines 713–722): same shape as the chef lookup —
the customer-name fallback does not update the shared `orderId`. -/
def waiterDeliverLocate (st : SharedOrderState) (rows : List OrderRow) :
    SharedOrderState × Option OrderRow :=
  match findRowById rows st.orderId with
  | some r => (st, some r)
  | none => (st, findRowByName rows st.customerName)

/-- Stages of the Ciclo Completo test.  When the order id was not captured the
test throws at line 387 (`No se pudo capturar el ID de la orden`) and no later
stage runs; otherwise the run continues through all stages. -/
inductive CicloStage
  | waiterAccept
  | chef
  | waiterDeliver
  | payment
  | verification
deriving DecidableEq

def cicloStagesRun (oid : Option String) : List CicloStage :=
  match oid with
  | none => []
  | some _ =>
    [CicloStage.waiterAccept, CicloStage.chef, CicloStage.waiterDeliver,
     CicloStage.payment, CicloStage.verification]

/-- Outcome of the chef stage of the Ciclo Completo test (lines 587–654): when
the order is found neither by id nor by customer name, the kitchen is skipped
outright — no action, no finding, no throw, context closed — and execution falls
through to the waiter-deliver stage; otherwise the `Iniciar` and `Listo`
transitions are driven. -/
structure ChefStageResult where
  kitchenActions : List String
  findings : List Finding
  threwError : Bool
  nextStage : CicloStage
deriving DecidableEq

def chefStage (st : SharedOrderState) (rows : List OrderRow) : ChefStageResult :=
  match (chefLocate st rows).2 with
  | none =>
    { kitchenActions := [], findings := [], threwError := false
      nextStage := CicloStage.waiterDeliver }
  | some _ =>
    { kitchenActions := ["Iniciar", "Listo"], findings := [], threwError := false
      nextStage := CicloStage.waiterDeliver }

/-! ### Final customer-side verification (Ciclo Completo PASO 6, lines 851–891) -/

structure OrderCard where
  cardText : String
deriving DecidableEq

/-- The `toMatch(/pagada|paid|pagado|completado/i)` check of line 886. -/
def paidPattern (s : String) : Bool :=
  containsCI s "pagada" || containsCI s "paid" || containsCI s "pagado" ||
    containsCI s "completado"

/-- PASO 6: in a fresh browser context, the first `.order-card, .order-item-card`
whose text contains the creation-time customer name must exist, be visible and
match the paid pattern; otherwise the surrounding `toPass` retry loop keeps
failing until its 20s timeout and the test fails. -/
def finalVerification (cards : List OrderCard) (customerName : String) : Bool :=
  match cards.find? (fun c => containsSubstr c.cardText customerName) with
  | some c => paidPattern c.cardText
  | none => false

/-- Outcome of the whole Ciclo Completo test: a Playwright `expect` failure in
any stage throws and fails the test, so the run passes exactly when every
earlier stage's expectations held and the final verification succeeded. -/
def cicloRunPasses (earlierStagesOk : Bool) (cards : List OrderCard)
    (customerName : String) : Bool :=
  earlierStagesOk && finalVerification cards customerName

/-! ### Action-control discovery -/

structure ActionBtn where
  titleAttr : Option String
  ariaLabel : Option String
  dataEndpointAttr : Option String
  btnText : String
  classes : List String
  visible : Bool
deriving DecidableEq

/-- A dashboard row together with its action buttons. -/
structure BtnRow where
  rowOrderId : Option String
  buttons : List ActionBtn
deriving DecidableEq

inductive BtnSelector
  | byTitle (v : String)
  | byAria (v : String)
  | byEndpointFragment (v : String)
  | byClassAndTitle (cls v : String)
  | byText (v : String)
deriving DecidableEq

def btnMatches (sel : BtnSelector) (b : ActionBtn) : Bool :=
  match sel with
  | BtnSelector.byTitle v => b.titleAttr = some v
  | BtnSelector.byAria v => b.ariaLabel = some v
  | BtnSelector.byEndpointFragment v =>
    match b.dataEndpointAttr with
    | some e => containsSubstr e v
    | none => false
  | BtnSelector.byClassAndTitle cls v => b.classes.contains cls && b.titleAttr = some v
  | BtnSelector.byText v => containsCI b.btnText v

/-- `locator(sel).first()` followed by `count > 0 && isVisible`: the first
matching button is taken and the selector is rejected when that button is not
visible (Ciclo Completo lines 480–487). -/
def selectorHit (sel : BtnSelector) (bs : List ActionBtn) : Option ActionBtn :=
  match bs.find? (fun b => btnMatches sel b) with
  | some b => if b.visible then some b else none
  | none => none

def firstSelectorHit (sels : List BtnSelector) (bs : List ActionBtn) : Option ActionBtn :=
  match sels with
  | [] => none
  | s :: rest =>
    match selectorHit s bs with
    | some b => some b
    | none => firstSelectorHit rest bs

/-- The prioritized accept-button selector list of the Ciclo Completo test
(lines 471–477), all scoped to `tr[data-order-id="${orderId}"]`. -/
def perfAcceptSelectors : List BtnSelector :=
  [BtnSelector.byTitle "Aceptar", BtnSelector.byAria "Aceptar",
   BtnSelector.byEndpointFragment "/accept",
   BtnSelector.byClassAndTitle "waiter-action" "Aceptar",
   BtnSelector.byText "Aceptar"]

/-- Buttons of the first row carrying `data-order-id = oid` (the row scope of the
selectors above); no row, no candidate buttons. -/
def rowButtons (rows : List BtnRow) (oid : String) : List ActionBtn :=
  match rows.find? (fun r => r.rowOrderId = some oid) with
  | some r => r.buttons
  | none => []

/-- Accept-control discovery of the Ciclo Completo test (lines 469–512): the
prioritized selectors are tried in order against the order's row; when nothing
matches there is no global fallback and no finding — the script only logs the
row's current status and moves on. -/
def perfAcceptDiscovery (rows : List BtnRow) (oid : String) :
    Option ActionBtn × List Finding :=
  (firstSelectorHit perfAcceptSelectors (rowButtons rows oid), [])

/-- Accept-control discovery of qa-cycle.spec.ts (lines 168–188): the order
row's `button:has-text("Aceptar")` when the row exists, otherwise the first
`button:has-text("Aceptar")` anywhere on the page; neither branch records a
finding (the degraded branch only prints `checking all orders...`). -/
def qaAcceptDiscovery (rows : List BtnRow) (oid : String) :
    Option ActionBtn × List Finding :=
  match rows.find? (fun r => r.rowOrderId = some oid) with
  | some r => (r.buttons.find? (fun b => btnMatches (BtnSelector.byText "Aceptar") b), [])
  | none =>
    ((rows.map (fun r => r.buttons)).flatten.find?
      (fun b => btnMatches (BtnSelector.byText "Aceptar") b), [])

/-! ### The qa-cycle run skeleton (non-throwing path)

qa-cycle.spec.ts guards every block that acts on the target order with
`if (orderId)`; the chef stage logs a MEDIUM finding when the kitchen shows no
orders at all, and the cashier stage a LOW finding when no PDF control exists. -/

structure QaRunEnv where
  creation : CreationSignal
  hasKitchenOrders : Bool
  pdfBtnPresent : Bool
deriving DecidableEq

inductive QaAction
  | waiterAcceptStep
  | chefStep
  | waiterDeliverStep
deriving DecidableEq

structure QaRunResult where
  findings : List Finding
  orderActions : List QaAction
deriving DecidableEq

/-- The finding logged at lines 150–152 when no order id could be resolved. -/
def unresolvedFinding : Finding :=
  { severity := Severity.critical, description := "Could not retrieve order ID"
    location := "Client checkout", impact := "Cannot track order"
    solution := "Check API response" }

/-- The non-throwing execution of the `Complete order cycle from client to paid`
test body: findings in recording order (lines 150–152, 227, 280) and the
executed order-dependent blocks (each guarded by `if (orderId)`,
lines 168, 204, 240). -/
def qaCycleRun (env : QaRunEnv) : QaRunResult :=
  let oid := resolveOrderQaCycle env.creation
  let resolutionFindings : List Finding :=
    match oid with
    | none => [unresolvedFinding]
    | some _ => []
  let kitchenFindings : List Finding :=
    if env.hasKitchenOrders then []
    else
      [{ severity := Severity.medium, description := "No orders in kitchen"
         location := "Chef dashboard", impact := "Chef workflow incomplete"
         solution := "Check if waiter accepted order" }]
  let cashierFindings : List Finding :=
    if env.pdfBtnPresent then []
    else
      [{ severity := Severity.low
         description := "PDF download button not found in paid orders"
         location := "Cashier dashboard", impact := "Cannot download receipts"
         solution := "Add PDF export to paid orders" }]
  let acceptActs : List QaAction :=
    if oid.isSome then [QaAction.waiterAcceptStep] else []
  let chefActs : List QaAction :=
    if env.hasKitchenOrders && oid.isSome then [QaAction.chefStep] else []
  let deliverActs : List QaAction :=
    if oid.isSome then [QaAction.waiterDeliverStep] else []
  { findings := resolutionFindings ++ kitchenFindings ++ cashierFindings
    orderActions := acceptActs ++ chefActs ++ deliverActs }

/-! ### Concrete inputs used by the counterexamples and witnesses below -/

def cEnvA : CreationSignal :=
  { postResponse := some [("order_id", "42")], activeOrders := []
    orderCardAttr := none, pageUrl := "http://localhost:6080/orders/7"
    anyDataOrderAttr := none, orderNumberText := none }

def cEnvB : CreationSignal :=
  { postResponse := none, activeOrders := [], orderCardAttr := none
    pageUrl := "http://localhost:6080/", anyDataOrderAttr := some (some "9")
    orderNumberText := none }

def c3State : SharedOrderState :=
  { orderId := "5", customerName := "QA Tester 123456" }

def c3Rows : List OrderRow :=
  [{ dataOrderId := some "7", rowText := "QA TESTER 123456 Pendiente"
     dataStatus := "new" }]

def c4Env : QaRunEnv :=
  { creation :=
      { postResponse := none, activeOrders := [], orderCardAttr := none
        pageUrl := "http://localhost:6080/", anyDataOrderAttr := none
        orderNumberText := none }
    hasKitchenOrders := true, pdfBtnPresent := true }

def c5Cards : List OrderCard :=
  [{ cardText := "QA Tester 1234 Total 45.00 Pagada" }]

def c6Btn : ActionBtn :=
  { titleAttr := some "Aceptar", ariaLabel := none, dataEndpointAttr := none
    btnText := "Aceptar", classes := [], visible := true }

def c6Rows : List BtnRow :=
  [{ rowOrderId := some "7", buttons := [c6Btn] }]

/-- A LOW finding as captured by pronto-test-v2.cjs lines 183–189. -/
def fLowDemo : Finding :=
  { severity := Severity.low, description := "Sin confirmación email"
    location := "localhost:6081", impact := "Usuario sin feedback"
    solution := "Agregar toast confirmación" }

/-- A CRITICAL finding as captured by pronto-test-v2.cjs lines 41–47. -/
def fCritDemo : Finding :=
  { severity := Severity.critical, description := "No hay productos visibles"
    location := "localhost:6080", impact := "No se pueden hacer órdenes"
    solution := "Verificar /api/menu y base de datos" }

/-! ## Helper lemmas -/

theorem countSev_cons (e : Finding) (l : List Finding) (s : Severity) :
    countSev (e :: l) s = (if e.severity = s then 1 else 0) + countSev l s := by
  by_cases h : e.severity = s
  · simp [countSev, List.filter_cons, h, Nat.add_comm]
  · simp [countSev, List.filter_cons, h]

theorem countSev_sum (errors : List Finding) :
    countSev errors Severity.critical + countSev errors Severity.high +
      countSev errors Severity.medium + countSev errors Severity.low =
      errors.length := by
  induction errors with
  | nil => rfl
  | cons e rest ih =>
    rw [countSev_cons, countSev_cons, countSev_cons, countSev_cons]
    cases h : e.severity <;> simp [List.length_cons] <;> omega

theorem bySev_foldl_counts (errors : List Finding) (c : SevCounts) :
    (errors.foldl (fun acc e => bumpSev acc e.severity) c).criticalCount =
      c.criticalCount + countSev errors Severity.critical ∧
    (errors.foldl (fun acc e => bumpSev acc e.severity) c).highCount =
      c.highCount + countSev errors Severity.high ∧
    (errors.foldl (fun acc e => bumpSev acc e.severity) c).mediumCount =
      c.mediumCount + countSev errors Severity.medium ∧
    (errors.foldl (fun acc e => bumpSev acc e.severity) c).lowCount =
      c.lowCount + countSev errors Severity.low := by
  induction errors generalizing c with
  | nil => simp [countSev]
  | cons e rest ih =>
    simp only [List.foldl_cons]
    obtain ⟨h1, h2, h3, h4⟩ := ih (bumpSev c e.severity)
    rw [h1, h2, h3, h4, countSev_cons, countSev_cons, countSev_cons, countSev_cons]
    cases h : e.severity <;> simp [bumpSev] <;> omega

/-! ## Claim theorems -/

/-- C9: in both generated run reports the summary counts are consistent — the
pronto-qa-test summary `total` is the number of collected findings, every
severity counter (in both the pronto-qa-test summary and the pronto-test-v2
`bySev` aggregation) counts exactly the findings of its severity, and the four
counters sum to the total number of findings. -/
theorem c9_report_counts (errors : List Finding) :
    (qaTestSummary errors).total = errors.length ∧
    (qaTestSummary errors).critical = countSev errors Severity.critical ∧
    (qaTestSummary errors).high = countSev errors Severity.high ∧
    (qaTestSummary errors).medium = countSev errors Severity.medium ∧
    (qaTestSummary errors).low = countSev errors Severity.low ∧
    (qaTestSummary errors).critical + (qaTestSummary errors).high +
      (qaTestSummary errors).medium + (qaTestSummary errors).low =
      (qaTestSummary errors).total ∧
    (bySev errors).criticalCount = countSev errors Severity.critical ∧
    (bySev errors).highCount = countSev errors Severity.high ∧
    (bySev errors).mediumCount = countSev errors Severity.medium ∧
    (bySev errors).lowCount = countSev errors Severity.low ∧
    (bySev errors).criticalCount + (bySev errors).highCount +
      (bySev errors).mediumCount + (bySev errors).lowCount = errors.length := by
  obtain ⟨h1, h2, h3, h4⟩ :=
    bySev_foldl_counts errors
      { criticalCount := 0, highCount := 0, mediumCount := 0, lowCount := 0 }
  have hsum := countSev_sum errors
  refine ⟨rfl, rfl, rfl, rfl, rfl, hsum, ?_, ?_, ?_, ?_, ?_⟩ <;>
    simp [bySev, h1, h2, h3, h4, hsum]

/-- C8 counterexample: a pronto-qa-test run that collected one CRITICAL finding
still terminates with exit status 0, and the report enumerates findings in
recording order (a LOW finding recorded before a CRITICAL one stays first), not
sorted by severity. -/
theorem c8_counterexample :
    prontoQaTestExitCode [fCritDemo] = 0 ∧
    ([fCritDemo] : List Finding).length ≠ 0 ∧
    (qaTestReport [fLowDemo, fCritDemo]).reportErrors = [fLowDemo, fCritDemo] ∧
    [fLowDemo, fCritDemo] ≠ [fCritDemo, fLowDemo] := by decide

/-- C8 amended: test_e2e_simple.cjs exits with status 0 exactly when it collected
no findings and with 1 otherwise, enumerating the findings in recording order;
pronto-qa-test.cjs prints and writes its full report (findings in recording
order) but always exits with status 0, even when findings were recorded. -/
theorem c8_exit_codes (errors : List String) (findings : List Finding) :
    (e2eSimpleExitCode errors = 0 ↔ errors = []) ∧
    (e2eSimpleExitCode errors = 0 ∨ e2eSimpleExitCode errors = 1) ∧
    prontoQaTestExitCode findings = 0 ∧
    (qaTestReport findings).reportErrors = findings := by
  refine ⟨?_, ?_, rfl, rfl⟩
  · simp [e2eSimpleExitCode, List.length_eq_zero]
  · by_cases h : errors.length = 0 <;> simp [e2eSimpleExitCode, h]

/-- C7 counterexample: in pronto-qa-test.cjs the client page and the employee
page — the customer actor and the employee actor of that run — are opened from
one and the same browsing context, so their context ids are not pairwise
distinct. -/
theorem c7_counterexample :
    prontoQaTestPages = [("clientPage", 0), ("employeePage", 0)] ∧
    ¬ (prontoQaTestPages.map Prod.snd).Nodup := by decide

/-- C7 amended: in the Ciclo Completo test and in qa-cycle.spec.ts every actor
session is opened in its own fresh browsing context (all context ids pairwise
distinct), but in pronto-qa-test.cjs and pronto-test-v2.cjs the client page and
the employee page share a single context. -/
theorem c7_context_isolation :
    (cicloCompletoPages.map Prod.snd).Nodup ∧
    (qaCyclePages.map Prod.snd).Nodup ∧
    prontoQaTestPages = [("clientPage", 0), ("employeePage", 0)] ∧
    prontoTestV2Pages = [("clientPage", 0), ("employeePage", 0)] := by decide

/-- C1 counterexample: the waiter-accept transition of the Ciclo Completo run is
followed by a fixed sleep, not a status poll, so its successor (chef start) is
attempted without the accept post-state ever being confirmed — the claim's
universally quantified polling requirement fails. -/
theorem c1_counterexample :
    ("waiterAccept", Confirmation.fixedSleep 3000) ∈ cicloTransitions ∧
    Confirmation.isPoll (Confirmation.fixedSleep 3000) = false ∧
    ¬ ∀ t ∈ cicloTransitions, t.2.isPoll = true := by decide

/-- C1 amended: in the Ciclo Completo run only the chef-start, chef-ready and
waiter-deliver transitions are confirmed by polling the observed `data-status`
within a bounded timeout; the waiter-accept and payment transitions rely on
fixed sleeps, which let the run proceed whatever states were observed, and in
qa-cycle.spec.ts every transition relies on a fixed sleep. -/
theorem c1_confirmation_modes :
    (cicloTransitions.filter (fun t => t.2.isPoll)).map Prod.fst =
      ["chefStart", "chefReady", "waiterDeliver"] ∧
    (cicloTransitions.filter (fun t => !t.2.isPoll)).map Prod.fst =
      ["waiterAccept", "payment"] ∧
    qaCycleTransitions.all (fun t => !t.2.isPoll) = true ∧
    (∀ ms observations, confirmProceeds (Confirmation.fixedSleep ms) observations = true) := by
  exact ⟨by decide, by decide, by decide, fun _ _ => rfl⟩

/-- C2 counterexample: with the captured creation response carrying
`order_id = 42` and the checkout URL ending in `/orders/7`, the claimed
four-strategy resolver returns 42 while the Ciclo Completo resolver returns 7
(it never reads the captured payload); with only a DOM data attribute carrying
the id, the qa-cycle resolver fails where the claimed resolver succeeds (it
never reads the DOM). -/
theorem c2_counterexample :
    resolveOrderClaimed cEnvA = some "42" ∧
    resolveOrderPerf cEnvA = some "7" ∧
    some "42" ≠ some "7" ∧
    resolveOrderClaimed cEnvB = some "9" ∧
    resolveOrderQaCycle cEnvB = none := by decide

/-- C2 amended: each script's resolver is a first-success-wins chain, but over a
different strategy list than claimed — qa-cycle tries only the captured payload
(keys `order_id` then `id`) and then the first active-orders entry, never the
DOM or visible text; the Ciclo Completo resolver tries the named order card's
data attribute, the URL, any data attribute, then hash-number text, never the
captured payload or the read endpoint. -/
theorem c2_resolution_chains (env : CreationSignal) :
    (∀ v, payloadStrategy env = some v → v ≠ "" → resolveOrderQaCycle env = some v) ∧
    (payloadStrategy env = none → resolveOrderQaCycle env = activeOrdersStrategy env) ∧
    (∀ v, cardByNameStrategy env = some v → resolveOrderPerf env = some v) ∧
    (cardByNameStrategy env = none → urlStrategy env = none →
      domAttrStrategy env = none → resolveOrderPerf env = hashTextStrategy env) ∧
    (∀ e2 : CreationSignal, e2.postResponse = env.postResponse →
      e2.activeOrders = env.activeOrders →
      resolveOrderQaCycle e2 = resolveOrderQaCycle env) ∧
    (∀ e2 : CreationSignal, e2.orderCardAttr = env.orderCardAttr →
      e2.pageUrl = env.pageUrl → e2.anyDataOrderAttr = env.anyDataOrderAttr →
      e2.orderNumberText = env.orderNumberText →
      resolveOrderPerf e2 = resolveOrderPerf env) := by
  refine ⟨?_, ?_, ?_, ?_, ?_, ?_⟩
  · intro v hv hne
    simp [resolveOrderQaCycle, jsOr, hv, hne]
  · intro hnone
    simp [resolveOrderQaCycle, jsOr, hnone]
  · intro v hv
    have hne : v ≠ "" := by
      intro heq
      subst heq
      unfold cardByNameStrategy at hv
      split at hv
      · split at hv
        · exact Option.noConfusion hv
        · next hne2 => exact hne2 (Option.some.inj hv)
      · exact Option.noConfusion hv
      · exact Option.noConfusion hv
    simp [resolveOrderPerf, jsOr, hv, hne]
  · intro h1 h2 h3
    simp [resolveOrderPerf, jsOr, h1, h2, h3]
  · intro e2 ha hb
    simp [resolveOrderQaCycle, payloadStrategy, activeOrdersStrategy, ha, hb]
  · intro e2 ha hb hc hd
    simp [resolveOrderPerf, cardByNameStrategy, urlStrategy, domAttrStrategy,
      hashTextStrategy, ha, hb, hc, hd]

/-- Witness for C2's amended theorem at a concrete creation signal: the payload
strategy succeeds with 42 and the qa-cycle resolver returns it. -/
theorem c2_resolution_chains_witness :
    resolveOrderQaCycle cEnvA = some "42" :=
  (c2_resolution_chains cEnvA).1 "42" (by decide) (by decide)

/-- C3 counterexample: the chef stage finds the order only by customer name, on a
row whose `data-order-id` is 7, yet the shared reference keeps id 5 — the kitchen
transitions are driven on a different order than the shared one and the
reference is not updated. -/
theorem c3_counterexample :
    (chefLocate c3State c3Rows).1.orderId = "5" ∧
    ((chefLocate c3State c3Rows).2.map (fun r => r.dataOrderId)) = some (some "7") ∧
    ("5" : String) ≠ "7" := by decide

/-- C3 amended: only the waiter-accept stage's customer-name fallback updates the
shared order id (to the found row's truthy `data-order-id`); the chef and
waiter-deliver fallbacks locate the row by name but leave the shared reference
untouched. -/
theorem c3_reference_updates (st : SharedOrderState) (rows : List OrderRow) :
    (∀ r fid, findRowById rows st.orderId = none →
      findRowByName rows st.customerName = some r →
      r.dataOrderId = some fid → fid ≠ "" →
      (waiterAcceptLocate st rows).1.orderId = fid ∧
      (waiterAcceptLocate st rows).2 = some r) ∧
    (chefLocate st rows).1 = st ∧
    (waiterDeliverLocate st rows).1 = st := by
  refine ⟨?_, ?_, ?_⟩
  · intro r fid h1 h2 h3 h4
    simp [waiterAcceptLocate, h1, h2, h3, h4]
  · unfold chefLocate
    cases h : findRowById rows st.orderId <;> simp
  · unfold waiterDeliverLocate
    cases h : findRowById rows st.orderId <;> simp

/-- Witness for C3's amended theorem: on the concrete row list the waiter-accept
fallback rewrites the shared id from 5 to 7. -/
theorem c3_reference_updates_witness :
    (waiterAcceptLocate c3State c3Rows).1.orderId = "7" :=
  ((c3_reference_updates c3State c3Rows).1
    { dataOrderId := some "7", rowText := "QA TESTER 123456 Pendiente"
      dataStatus := "new" }
    "7" (by decide) (by decide) (by decide) (by decide)).1

/-- C4 counterexample: when resolution fails, the single CRITICAL finding of the
qa-cycle run carries location `Client checkout`, not `order resolution`. -/
theorem c4_counterexample :
    ((qaCycleRun c4Env).findings.filter
        (fun f => f.severity = Severity.critical)).map (fun f => f.location) =
      ["Client checkout"] ∧
    ¬ ((qaCycleRun c4Env).findings.filter
        (fun f => f.severity = Severity.critical)).map (fun f => f.location) =
      ["order resolution"] := by decide

/-- C4 amended: if both resolution strategies of qa-cycle fail, the run records
exactly one CRITICAL finding — with location `Client checkout` — and executes
none of the order-dependent actor blocks; the Ciclo Completo test instead throws
on an unresolved id, so none of its later stages run at all. -/
theorem c4_unresolved_aborts (env : QaRunEnv)
    (h : resolveOrderQaCycle env.creation = none) :
    (qaCycleRun env).findings.filter (fun f => f.severity = Severity.critical) =
      [unresolvedFinding] ∧
    unresolvedFinding.severity = Severity.critical ∧
    unresolvedFinding.location = "Client checkout" ∧
    (qaCycleRun env).orderActions = [] ∧
    cicloStagesRun none = [] := by
  refine ⟨?_, rfl, rfl, ?_, rfl⟩
  · cases hk : env.hasKitchenOrders <;> cases hp : env.pdfBtnPresent <;>
      simp [qaCycleRun, h, hk, hp, unresolvedFinding, List.filter_append]
  · cases hk : env.hasKitchenOrders <;> simp [qaCycleRun, h, hk]

/-- Witness for C4's amended theorem at a creation signal where every strategy
fails. -/
theorem c4_unresolved_aborts_witness :
    (qaCycleRun c4Env).findings.filter (fun f => f.severity = Severity.critical) =
      [unresolvedFinding] ∧
    unresolvedFinding.severity = Severity.critical ∧
    unresolvedFinding.location = "Client checkout" ∧
    (qaCycleRun c4Env).orderActions = [] ∧
    cicloStagesRun none = [] :=
  c4_unresolved_aborts c4Env (by decide)

/-- C5: when the Ciclo Completo run passes, the final verification pass — run in
a fresh browsing context distinct from every actor context of the run — found an
order card containing the creation-time customer name whose text matches the
case-insensitive paid pattern `/pagada|paid|pagado|completado/i`; a run whose
final check fails does not pass. -/
theorem c5_final_verification (earlierOk : Bool) (cards : List OrderCard)
    (name : String) (h : cicloRunPasses earlierOk cards name = true) :
    (∃ c, cards.find? (fun c => containsSubstr c.cardText name) = some c ∧
      c ∈ cards ∧ containsSubstr c.cardText name = true ∧
      paidPattern c.cardText = true) ∧
    ("verifier", 4) ∈ cicloCompletoPages ∧
    (∀ p ∈ cicloCompletoPages, p.1 ≠ "verifier" → p.2 ≠ 4) := by
  refine ⟨?_, by decide, by decide⟩
  have hv : finalVerification cards name = true := by
    have := h
    unfold cicloRunPasses at this
    exact (Bool.and_eq_true _ _ ▸ this).2
  unfold finalVerification at hv
  cases hfind : cards.find? (fun c => containsSubstr c.cardText name) with
  | none => rw [hfind] at hv; exact Bool.noConfusion hv
  | some c =>
    rw [hfind] at hv
    have hmem := List.mem_of_find?_eq_some hfind
    have hpred : containsSubstr c.cardText name = true := by
      have hp := List.find?_some hfind
      simpa using hp
    exact ⟨c, rfl, hmem, hpred, hv⟩

/-- Witness for C5 at a concrete passing run: the card for `QA Tester 1234`
matches the paid pattern. -/
theorem c5_final_verification_witness :
    (∃ c, c5Cards.find? (fun c => containsSubstr c.cardText "QA Tester 1234") =
        some c ∧ c ∈ c5Cards ∧ containsSubstr c.cardText "QA Tester 1234" = true ∧
      paidPattern c.cardText = true) ∧
    ("verifier", 4) ∈ cicloCompletoPages ∧
    (∀ p ∈ cicloCompletoPages, p.1 ≠ "verifier" → p.2 ≠ 4) :=
  c5_final_verification true c5Cards "QA Tester 1234" (by decide)

/-- C6 counterexample: with the target order's row absent from the waiter view,
qa-cycle clicks the first page-wide `Aceptar` button — here one belonging to a
different order's row — and records no finding, where the claim requires a
MEDIUM finding whenever the degraded global match is used. -/
theorem c6_counterexample :
    c6Rows.find? (fun r => r.rowOrderId = some "5") = none ∧
    (qaAcceptDiscovery c6Rows "5").1 = some c6Btn ∧
    (qaAcceptDiscovery c6Rows "5").2 = [] := by decide

/-- C6 amended: the Ciclo Completo accept discovery tries its prioritized
selector list (title, aria-label, endpoint fragment, action-class title, text)
scoped to the order's row, finds nothing when the row is absent — no global
fallback — and records no finding either way; qa-cycle scopes a single text
selector to the row and, when the row is absent, degrades to the page-wide first
text match without recording any finding. -/
theorem c6_control_discovery (rows : List BtnRow) (oid : String) :
    (perfAcceptDiscovery rows oid).2 = [] ∧
    (qaAcceptDiscovery rows oid).2 = [] ∧
    (rows.find? (fun r => r.rowOrderId = some oid) = none →
      (perfAcceptDiscovery rows oid).1 = none) ∧
    (∀ b, selectorHit (BtnSelector.byTitle "Aceptar") (rowButtons rows oid) = some b →
      (perfAcceptDiscovery rows oid).1 = some b) ∧
    (rows.find? (fun r => r.rowOrderId = some oid) = none →
      (qaAcceptDiscovery rows oid).1 =
        (rows.map (fun r => r.buttons)).flatten.find?
          (fun b => btnMatches (BtnSelector.byText "Aceptar") b)) := by
  refine ⟨rfl, ?_, ?_, ?_, ?_⟩
  · cases h : rows.find? (fun r => r.rowOrderId = some oid) <;>
      simp [qaAcceptDiscovery, h]
  · intro h
    simp [perfAcceptDiscovery, rowButtons, h, firstSelectorHit, selectorHit,
      perfAcceptSelectors]
  · intro b hb
    simp [perfAcceptDiscovery, perfAcceptSelectors, firstSelectorHit, hb]
  · intro h
    simp [qaAcceptDiscovery, h]

/-- Witness for C6's amended theorem: with no rows at all the Ciclo Completo
discovery yields no control, and on the concrete degraded view qa-cycle records
no finding. -/
theorem c6_control_discovery_witness :
    (perfAcceptDiscovery [] "5").1 = none ∧ (qaAcceptDiscovery c6Rows "5").2 = [] :=
  ⟨(c6_control_discovery [] "5").2.2.1 (by decide),
   (c6_control_discovery c6Rows "5").2.1⟩

/-- C10: when the chef's kitchen view contains the shared order neither under its
id nor under the creation-time customer name, both kitchen transitions are
skipped with no finding recorded and no error thrown, and the run proceeds
directly to the waiter-deliver stage. -/
theorem c10_quick_serve_skip (st : SharedOrderState) (rows : List OrderRow)
    (h1 : findRowById rows st.orderId = none)
    (h2 : findRowByName rows st.customerName = none) :
    (chefStage st rows).kitchenActions = [] ∧
    (chefStage st rows).findings = [] ∧
    (chefStage st rows).threwError = false ∧
    (chefStage st rows).nextStage = CicloStage.waiterDeliver := by
  simp [chefStage, chefLocate, h1, h2]

/-- Witness for C10 on an empty kitchen view. -/
theorem c10_quick_serve_skip_witness :
    (chefStage c3State []).kitchenActions = [] ∧
    (chefStage c3State []).findings = [] ∧
    (chefStage c3State []).threwError = false ∧
    (chefStage c3State []).nextStage = CicloStage.waiterDeliver :=
  c10_quick_serve_skip c3State [] (by decide) (by decide)

end Pronto
